import Mathlib

/-
Verification of the beancount lexer support layer
(src/python/beancount/parser/lexer.h).

The file embeds, as Lean definitions, the hand-written macros and globals
declared in lexer.h: the lexer-builder bridge (BUILD_LEX), the location
stamping hook (YY_USER_ACTION), the string accumulator append macro
(SAFE_COPY_CHAR), and the error reporting entry points.  Functions whose
bodies are not part of the header (strtonl, strbuf_realloc,
build_lexer_error_from_exception, the flex buffer-stack routines, the scan
loop) are modelled from the specification, as noted in their doc comments.
-/

namespace BeancountLexer

/-! ## Error records and host state -/

/-- A lexer error record: the message string and the byte length passed to
`build_lexer_error` (lexer.h:17). -/
structure LexError where
  message : String
  length : Nat
deriving DecidableEq, Repr

/-- Host state visible to the bridge: the ambient exception state (the
description the failing builder call left behind, `none` when clear) and the
externally owned error collection the lexer appends to. -/
structure HostState where
  exc : Option String
  errors : List LexError
deriving DecidableEq, Repr

/-- `build_lexer_error` (declared lexer.h:17): builds and accumulates one
error record, with the given message and length, on the builder object. -/
def build_lexer_error (string : String) (length : Nat) (st : HostState) :
    HostState :=
  { st with errors := st.errors ++ [⟨string, length⟩] }

/-- Modelled from the spec: `build_lexer_error_from_exception` is declared at
lexer.h:21 but its body is not under src/.  Per the spec it reads whatever
failure description the host left behind, formats it, appends one error
record, and clears the ambient state. -/
def build_lexer_error_from_exception (st : HostState) : HostState :=
  { exc := none,
    errors := st.errors ++ [⟨st.exc.getD "", (st.exc.getD "").length⟩] }

/-! ## The lexer-builder bridge (BUILD_LEX, lexer.h:26-38) -/

/-- Result of the `PyObject_CallMethod` call made by BUILD_LEX: `null` is a
NULL return (an exception was raised by the handler), `pynone` is the
`Py_None` singleton, `value v` is a real semantic value (an opaque handle). -/
inductive PyResult where
  | null : PyResult
  | pynone : PyResult
  | value (v : Nat) : PyResult
deriving DecidableEq, Repr

/-- A token produced by one scan call: an ordinary token (kind and semantic
value), the distinguished LEX_ERROR token, or end of input. -/
inductive Token where
  | tok (kind : Nat) (value : Nat) : Token
  | lexError : Token
  | eof : Token
deriving DecidableEq, Repr

/-- The fixed diagnostic message of BUILD_LEX's contract-violation branch
(lexer.h:36). -/
def unexpectedNoneMessage : String := "Unexpected None result from lexer"

/-- The length argument BUILD_LEX passes along with that message
(lexer.h:36). -/
def unexpectedNoneLength : Nat := 34

/-- The BUILD_LEX macro (lexer.h:26-38) around the rest of the rule action.
`r` is the result of the builder call and `st` the host state right after
that call; `rest` is the remainder of the scan call (the code after the
macro expansion), which receives the semantic value.  On a NULL result the
macro drains the exception into a lexer error and returns LEX_ERROR at once;
on a Py_None result it records the fixed diagnostic and returns LEX_ERROR at
once; otherwise the scan continues with the value. -/
def BUILD_LEX (r : PyResult) (st : HostState)
    (rest : Nat → HostState → Token × HostState) : Token × HostState :=
  match r with
  | .null => (.lexError, build_lexer_error_from_exception st)
  | .pynone =>
      (.lexError, build_lexer_error unexpectedNoneMessage unexpectedNoneLength st)
  | .value v => rest v st

/-! ## Location tracking (YY_USER_ACTION, lexer.h:65-71) -/

/-- The mutable scan-position globals touched by YY_USER_ACTION: `yylineno`
(lexer.h:292), `yycolumn` (lexer.h:50) and `yy_line_tokens` (lexer.h:63). -/
structure LexPos where
  yylineno : Nat
  yycolumn : Nat
  yy_line_tokens : Nat
deriving DecidableEq, Repr

/-- The YYLTYPE location record stamped on every match. -/
structure YYLTYPE where
  first_line : Nat
  first_column : Nat
  last_line : Nat
  last_column : Nat
deriving DecidableEq, Repr

/-- YY_USER_ACTION (lexer.h:65-71), run on every successful match before the
rule action: increments `yy_line_tokens`, stamps the location from the
current line/column and the match length `yyleng`, then advances the
column by `yyleng`. -/
def YY_USER_ACTION (yyleng : Nat) (p : LexPos) : YYLTYPE × LexPos :=
  ({ first_line := p.yylineno, last_line := p.yylineno,
     first_column := p.yycolumn, last_column := p.yycolumn + yyleng - 1 },
   { p with yy_line_tokens := p.yy_line_tokens + 1,
            yycolumn := p.yycolumn + yyleng })

/-- Modelled from the spec: the newline rule's action lives in lexer.l, which
is not under src/.  Per the spec, a newline match resets `yycolumn` to 1,
increments `yylineno`, and resets the `yy_line_tokens` counter to 0. -/
def newline_action (p : LexPos) : LexPos :=
  { yylineno := p.yylineno + 1, yycolumn := 1, yy_line_tokens := 0 }

/-- One whole match step as the grammar observes it: YY_USER_ACTION first,
then, when the match is a newline, the newline rule's action. -/
def match_step (isNewline : Bool) (yyleng : Nat) (p : LexPos) : LexPos :=
  let p' := (YY_USER_ACTION yyleng p).2
  if isNewline then newline_action p' else p'

/-! ## String accumulator (strbuf, lexer.h:53-58 and SAFE_COPY_CHAR, 83-87) -/

/-- The string-buffer statics (lexer.h:53-57), abstracted over the raw
pointers: `strbuf_size` is the capacity not counting the final nul; `data`
holds the bytes written so far, so the insertion point `strbuf_ptr` is at
offset `data.length` and the sentinel `strbuf_end` is at offset
`strbuf_size`. -/
structure StrBuf where
  strbuf_size : Nat
  data : List Nat
deriving DecidableEq, Repr

/-- Offset of the insertion point `strbuf_ptr` from the buffer head. -/
def StrBuf.ptrOffset (b : StrBuf) : Nat := b.data.length

/-- Offset of the sentinel `strbuf_end` from the buffer head. -/
def StrBuf.endOffset (b : StrBuf) : Nat := b.strbuf_size

/-- Modelled from the spec: `strbuf_realloc` is declared at lexer.h:58 but
its body is not under src/.  Per the spec it reallocates to at least double
the current size, or enough to fit the pending write, whichever is larger,
preserving existing content and updating all cursors consistently. -/
def strbuf_realloc (num_new_chars : Nat) (b : StrBuf) : StrBuf :=
  { b with strbuf_size := max (2 * b.strbuf_size) (b.ptrOffset + num_new_chars) }

/-- SAFE_COPY_CHAR (lexer.h:83-87): if the insertion point has reached the
sentinel, reallocate room for one character first; then store the byte at
the insertion point and advance it. -/
def SAFE_COPY_CHAR (value : Nat) (b : StrBuf) : StrBuf :=
  let b' := if b.endOffset ≤ b.ptrOffset then strbuf_realloc 1 b else b
  { b' with data := b'.data ++ [value] }

/-! ## Numeric parser (strtonl, lexer.h:79) -/

/-- Modelled from the spec: `strtonl` is declared at lexer.h:79 but its body
is not under src/.  Per the spec it interprets `nchars` consecutive ASCII
decimal digit characters as a non-negative integer via repeated
multiply-by-10-and-add. -/
def strtonl (buf : List Char) (nchars : Nat) : Nat :=
  (buf.take nchars).foldl (fun acc c => acc * 10 + (c.toNat - Char.toNat '0')) 0

/-- The integer a digit string denotes, written independently of the
multiply-and-add loop: the place-value sum of the digit values. -/
def digitsDenote (cs : List Char) : Nat :=
  Nat.ofDigits 10 ((cs.map (fun c => c.toNat - Char.toNat '0')).reverse)

/-! ## Scan loop at end of input (yywrap, lexer.h:289; yy_eof_times,
lexer.h:48) -/

/-- Scan state for a single top-level buffer: the remaining input and the
`yy_eof_times` counter (lexer.h:48). -/
structure SingleBufState where
  remaining : List Nat
  yy_eof_times : Nat
deriving DecidableEq, Repr

/-- Modelled from the spec: the `next_token` scan loop over a single
top-level buffer with no includes (the generated flex scan loop is not under
src/).  `yywrap()` is defined to 1 (lexer.h:289), so exhausting the only
buffer is the true end of input: the scanner yields the end-of-input token,
counts the event in `yy_eof_times`, and leaves the (empty) input in place;
a non-empty buffer yields the next ordinary token, consuming input. -/
def next_token (s : SingleBufState) : Token × SingleBufState :=
  match s.remaining with
  | [] => (.eof, { s with yy_eof_times := s.yy_eof_times + 1 })
  | c :: rest => (.tok c c, { s with remaining := rest })

/-- The token produced by the (n+1)-th `next_token` call from state `s`,
together with the state after it. -/
def run_scan : Nat → SingleBufState → Token × SingleBufState
  | 0, s => next_token s
  | n + 1, s => run_scan n (next_token s).2

/-! ## Buffer stack (yypush_buffer_state / yypop_buffer_state,
lexer.h:276-277) -/

/-- One buffer frame: the read cursor into its source, the line and column
counters, and the source contents themselves. -/
structure BufferFrame where
  cursor : Nat
  lineno : Nat
  column : Nat
  source : List Nat
deriving DecidableEq, Repr

/-- The buffer stack: the active frame on top and the suspended frames
below it. -/
structure ScannerStack where
  active : BufferFrame
  suspended : List BufferFrame
deriving DecidableEq, Repr

/-- Modelled from the spec: `yypush_buffer_state` is declared at lexer.h:276
but its body is generated flex code not under src/.  Per the spec, push
suspends the current frame — saving its cursor, line and column — and makes
the new source active. -/
def yypush_buffer_state (newBuffer : BufferFrame) (s : ScannerStack) :
    ScannerStack :=
  { active := newBuffer, suspended := s.active :: s.suspended }

/-- Modelled from the spec: `yypop_buffer_state` is declared at lexer.h:277
but its body is generated flex code not under src/.  Per the spec, pop
discards the active frame and reactivates the previously suspended one,
restoring its saved cursor, line and column exactly; popping with no
suspended frame signals final end of input. -/
def yypop_buffer_state (s : ScannerStack) : Option ScannerStack :=
  match s.suspended with
  | [] => none
  | parent :: rest => some { active := parent, suspended := rest }

/-- Scanning inside the active buffer only rewrites the active frame; the
transformation `f` is arbitrary, standing for any amount of scanning of any
nested-buffer contents. -/
def scan_active (f : BufferFrame → BufferFrame) (s : ScannerStack) :
    ScannerStack :=
  { s with active := f s.active }

end BeancountLexer

namespace BeancountLexer

/-! ## Claim theorems: bridge and location tracker -/

/-- C1: when the builder call yields no value with the ambient exception state
set (a NULL result), BUILD_LEX drains that failure into a lexer error via
`build_lexer_error_from_exception` and the scan call returns LEX_ERROR at
once, never running the rest of the rule action. -/
theorem build_lex_null_drains_and_aborts
    (st : HostState) (rest : Nat → HostState → Token × HostState)
    (m : String) (h : st.exc = some m) :
    BUILD_LEX .null st rest = (.lexError, build_lexer_error_from_exception st)
    ∧ (BUILD_LEX .null st rest).2.exc = none
    ∧ (BUILD_LEX .null st rest).2.errors = st.errors ++ [⟨m, m.length⟩] := by
  refine ⟨rfl, rfl, ?_⟩
  simp [BUILD_LEX, build_lexer_error_from_exception, h]

/-- Witness for C1 at a concrete host state. -/
theorem build_lex_null_drains_and_aborts_witness :
    BUILD_LEX .null ⟨some "boom", []⟩ (fun v st => (.tok 0 v, st))
      = (.lexError, build_lexer_error_from_exception ⟨some "boom", []⟩)
    ∧ (BUILD_LEX .null ⟨some "boom", []⟩ (fun v st => (.tok 0 v, st))).2.exc = none
    ∧ (BUILD_LEX .null ⟨some "boom", []⟩ (fun v st => (.tok 0 v, st))).2.errors
        = [] ++ [⟨"boom", "boom".length⟩] :=
  build_lex_null_drains_and_aborts ⟨some "boom", []⟩ (fun v st => (.tok 0 v, st))
    "boom" rfl

/-- C2: when the builder call returns the Py_None sentinel without signaling
failure, BUILD_LEX records a lexer error with the fixed diagnostic message
and the scan call returns LEX_ERROR. -/
theorem build_lex_none_records_fixed_diagnostic
    (st : HostState) (rest : Nat → HostState → Token × HostState) :
    BUILD_LEX .pynone st rest
      = (.lexError,
         build_lexer_error unexpectedNoneMessage unexpectedNoneLength st)
    ∧ (BUILD_LEX .pynone st rest).2.errors
        = st.errors ++ [⟨unexpectedNoneMessage, unexpectedNoneLength⟩] :=
  ⟨rfl, rfl⟩

/-- C3: a successful match of length L ≥ 1 with line l and column c stamps
first_line = last_line = l, first_column = c, last_column = c + L - 1, and
leaves the column counter at c + L. -/
theorem yy_user_action_stamps_location
    (L : Nat) (p : LexPos) (h : 1 ≤ L) :
    (YY_USER_ACTION L p).1.first_line = p.yylineno
    ∧ (YY_USER_ACTION L p).1.last_line = p.yylineno
    ∧ (YY_USER_ACTION L p).1.first_column = p.yycolumn
    ∧ (YY_USER_ACTION L p).1.last_column = p.yycolumn + L - 1
    ∧ (YY_USER_ACTION L p).2.yycolumn = p.yycolumn + L := by
  exact ⟨rfl, rfl, rfl, rfl, rfl⟩

/-- Witness for C3 at L = 3, line 5, column 10. -/
theorem yy_user_action_stamps_location_witness :
    (YY_USER_ACTION 3 ⟨5, 10, 2⟩).1.first_line = 5
    ∧ (YY_USER_ACTION 3 ⟨5, 10, 2⟩).1.last_line = 5
    ∧ (YY_USER_ACTION 3 ⟨5, 10, 2⟩).1.first_column = 10
    ∧ (YY_USER_ACTION 3 ⟨5, 10, 2⟩).1.last_column = 10 + 3 - 1
    ∧ (YY_USER_ACTION 3 ⟨5, 10, 2⟩).2.yycolumn = 10 + 3 :=
  yy_user_action_stamps_location 3 ⟨5, 10, 2⟩ (by decide)

/-- C4: after a non-newline match the tokens-since-beginning-of-line counter
has gone up by one; after a newline match it is 0 (not incremented), the
column is reset to 1 and the line counter has gone up by one. -/
theorem line_tokens_counter_behaviour (L : Nat) (p : LexPos) :
    (match_step false L p).yy_line_tokens = p.yy_line_tokens + 1
    ∧ (match_step true 1 p).yy_line_tokens = 0
    ∧ (match_step true 1 p).yycolumn = 1
    ∧ (match_step true 1 p).yylineno = p.yylineno + 1 :=
  ⟨rfl, rfl, rfl, rfl⟩

/-- C10: the contract-violation branch reports the fixed message with length
argument 34, one greater than the 33 characters of the message itself. -/
theorem unexpected_none_length_covers_nul
    (st : HostState) (rest : Nat → HostState → Token × HostState) :
    (BUILD_LEX .pynone st rest).2.errors
      = st.errors ++ [⟨unexpectedNoneMessage, 34⟩]
    ∧ unexpectedNoneMessage.length = 33
    ∧ unexpectedNoneLength = unexpectedNoneMessage.length + 1 :=
  ⟨rfl, rfl, rfl⟩

/-! ## Claim theorems: string accumulator -/

/-- C5: under the buffer invariant (insertion point at or before the
sentinel), SAFE_COPY_CHAR stores the byte after all previously written
bytes and advances the insertion point by one; when the insertion point had
reached the sentinel, the reallocation happens first, so afterwards the
insertion point is again at or before the sentinel and the write itself
landed strictly below it. -/
theorem safe_copy_char_no_overflow (v : Nat) (b : StrBuf)
    (hinv : b.ptrOffset ≤ b.endOffset) :
    (SAFE_COPY_CHAR v b).data = b.data ++ [v]
    ∧ (SAFE_COPY_CHAR v b).ptrOffset = b.ptrOffset + 1
    ∧ (SAFE_COPY_CHAR v b).ptrOffset ≤ (SAFE_COPY_CHAR v b).endOffset
    ∧ b.ptrOffset < (SAFE_COPY_CHAR v b).endOffset := by
  have hinv' : b.data.length ≤ b.strbuf_size := hinv
  by_cases h : b.strbuf_size ≤ b.data.length
  · refine ⟨?_, ?_, ?_, ?_⟩
    · simp [SAFE_COPY_CHAR, StrBuf.ptrOffset, StrBuf.endOffset, strbuf_realloc, h]
    · simp [SAFE_COPY_CHAR, StrBuf.ptrOffset, StrBuf.endOffset, strbuf_realloc, h]
    · simp only [SAFE_COPY_CHAR, StrBuf.ptrOffset, StrBuf.endOffset,
        strbuf_realloc, h, if_true, List.length_append, List.length_cons,
        List.length_nil]
      omega
    · simp only [SAFE_COPY_CHAR, StrBuf.ptrOffset, StrBuf.endOffset,
        strbuf_realloc, h, if_true]
      omega
  · refine ⟨?_, ?_, ?_, ?_⟩
    · simp [SAFE_COPY_CHAR, StrBuf.ptrOffset, StrBuf.endOffset, h]
    · simp [SAFE_COPY_CHAR, StrBuf.ptrOffset, StrBuf.endOffset, h]
    · simp only [SAFE_COPY_CHAR, StrBuf.ptrOffset, StrBuf.endOffset, h,
        if_false, List.length_append, List.length_cons, List.length_nil]
      omega
    · simp only [SAFE_COPY_CHAR, StrBuf.ptrOffset, StrBuf.endOffset, h,
        if_false]
      omega

/-- Witness for C5 at a full buffer (insertion point at the sentinel). -/
theorem safe_copy_char_no_overflow_witness :
    (SAFE_COPY_CHAR 9 ⟨2, [7, 8]⟩).data = [7, 8] ++ [9]
    ∧ (SAFE_COPY_CHAR 9 ⟨2, [7, 8]⟩).ptrOffset = StrBuf.ptrOffset ⟨2, [7, 8]⟩ + 1
    ∧ (SAFE_COPY_CHAR 9 ⟨2, [7, 8]⟩).ptrOffset
        ≤ (SAFE_COPY_CHAR 9 ⟨2, [7, 8]⟩).endOffset
    ∧ StrBuf.ptrOffset ⟨2, [7, 8]⟩ < (SAFE_COPY_CHAR 9 ⟨2, [7, 8]⟩).endOffset :=
  safe_copy_char_no_overflow 9 ⟨2, [7, 8]⟩ (by decide)

/-! ## Claim theorems: numeric parser -/

/-- The multiply-by-10-and-add loop computes the place-value sum of the
digit list, shifted past any accumulator already present. -/
theorem foldl_mul_add (ds : List Nat) (a : Nat) :
    ds.foldl (fun acc d => acc * 10 + d) a
      = a * 10 ^ ds.length + Nat.ofDigits 10 ds.reverse := by
  induction ds generalizing a with
  | nil => simp [Nat.ofDigits]
  | cons d ds ih =>
      simp only [List.foldl_cons, List.reverse_cons, List.length_cons, ih,
        Nat.ofDigits_append, Nat.ofDigits_cons, Nat.ofDigits_nil,
        List.length_reverse]
      ring

/-- C6: on a run of ASCII decimal digits, strtonl returns the non-negative
integer those digits denote (their place-value sum), and in particular
strtonl "2023" 4 = 2023 and strtonl "007" 3 = 7. -/
theorem strtonl_denotes (buf : List Char) (nchars : Nat)
    (hdig : ∀ c ∈ buf.take nchars, '0' ≤ c ∧ c ≤ '9') :
    strtonl buf nchars = digitsDenote (buf.take nchars)
    ∧ strtonl ['2', '0', '2', '3'] 4 = 2023
    ∧ strtonl ['0', '0', '7'] 3 = 7 := by
  refine ⟨?_, by decide, by decide⟩
  unfold strtonl digitsDenote
  have h0 := foldl_mul_add
    ((buf.take nchars).map (fun c => c.toNat - Char.toNat '0')) 0
  rw [List.foldl_map] at h0
  simpa using h0

/-- Witness for C6 on the digit run "42". -/
theorem strtonl_denotes_witness :
    strtonl ['4', '2'] 2 = digitsDenote (['4', '2'].take 2)
    ∧ strtonl ['2', '0', '2', '3'] 4 = 2023
    ∧ strtonl ['0', '0', '7'] 3 = 7 :=
  strtonl_denotes ['4', '2'] 2 (by decide)

/-! ## Claim theorems: buffer stack and end of input -/

/-- C7: pushing a nested buffer and popping it back, after any amount of
scanning inside it, restores the parent frame — its read cursor, line and
column included — exactly as saved at the push, regardless of the nested
buffer's contents or length. -/
theorem push_then_pop_restores_parent (s : ScannerStack)
    (newBuffer : BufferFrame) (f : BufferFrame → BufferFrame) :
    yypop_buffer_state (scan_active f (yypush_buffer_state newBuffer s))
      = some s := rfl

/-- After enough calls to exhaust the input, run_scan yields the
end-of-input token and the input stays exhausted. -/
theorem run_scan_eof (n : Nat) (s : SingleBufState)
    (h : s.remaining.length ≤ n) :
    (run_scan n s).1 = Token.eof ∧ (run_scan n s).2.remaining = [] := by
  induction n generalizing s with
  | zero =>
      have hnil : s.remaining = [] :=
        List.eq_nil_of_length_eq_zero (Nat.le_zero.mp h)
      constructor <;> simp [run_scan, next_token, hnil]
  | succ n ih =>
      cases hs : s.remaining with
      | nil =>
          have := ih (next_token s).2 (by simp [next_token, hs])
          simpa [run_scan] using this
      | cons c rest =>
          have hlen : rest.length ≤ n := by
            have := h
            rw [hs] at this
            simpa using this
          have := ih (next_token s).2 (by simp [next_token, hs, hlen])
          simpa [run_scan] using this

/-- C9: scanning a single top-level buffer with no includes to exhaustion
yields the end-of-input token, and every subsequent next_token call yields
end-of-input again (terminal state idempotent), never an error. -/
theorem scan_eof_idempotent (s : SingleBufState) (n : Nat)
    (h : s.remaining.length ≤ n) :
    (run_scan n s).1 = Token.eof
    ∧ (run_scan (n + 1) s).1 = Token.eof
    ∧ (run_scan n s).1 ≠ Token.lexError := by
  have h1 := run_scan_eof n s h
  have h2 := run_scan_eof (n + 1) s (Nat.le_succ_of_le h)
  exact ⟨h1.1, h2.1, by rw [h1.1]; intro hc; cases hc⟩

/-- Witness for C9: a two-element buffer is exhausted by the third call. -/
theorem scan_eof_idempotent_witness :
    (run_scan 2 ⟨[5, 6], 0⟩).1 = Token.eof
    ∧ (run_scan (2 + 1) ⟨[5, 6], 0⟩).1 = Token.eof
    ∧ (run_scan 2 ⟨[5, 6], 0⟩).1 ≠ Token.lexError :=
  scan_eof_idempotent ⟨[5, 6], 0⟩ 2 (by decide)

/-! ## Claim theorems: error-reporting discipline -/

/-- C8: each failure path of BUILD_LEX appends exactly one error record to
the collection (never dropping earlier records), draining a
builder-signaled failure clears the ambient exception state, and a
subsequent builder call that succeeds from the post-failure state behaves
exactly as its continuation — unaffected by the prior failure. -/
theorem bridge_failure_reported_once_and_cleared
    (st : HostState) (rest rest2 : Nat → HostState → Token × HostState)
    (m : String) (v : Nat) (h : st.exc = some m) :
    ((BUILD_LEX .null st rest).2.errors).length = st.errors.length + 1
    ∧ (BUILD_LEX .null st rest).2.errors = st.errors ++ [⟨m, m.length⟩]
    ∧ (BUILD_LEX .null st rest).2.exc = none
    ∧ ((BUILD_LEX .pynone st rest).2.errors).length = st.errors.length + 1
    ∧ BUILD_LEX (.value v) (BUILD_LEX .null st rest).2 rest2
        = rest2 v (BUILD_LEX .null st rest).2 := by
  refine ⟨?_, ?_, rfl, ?_, rfl⟩ <;>
    simp [BUILD_LEX, build_lexer_error_from_exception, build_lexer_error, h]

/-- Witness for C8 at a concrete failed state. -/
theorem bridge_failure_reported_once_and_cleared_witness :
    ((BUILD_LEX .null ⟨some "err", []⟩ (fun v st => (.tok 0 v, st))).2.errors).length
        = List.length ([] : List LexError) + 1
    ∧ (BUILD_LEX .null ⟨some "err", []⟩ (fun v st => (.tok 0 v, st))).2.errors
        = [] ++ [⟨"err", "err".length⟩]
    ∧ (BUILD_LEX .null ⟨some "err", []⟩ (fun v st => (.tok 0 v, st))).2.exc = none
    ∧ ((BUILD_LEX .pynone ⟨some "err", []⟩ (fun v st => (.tok 0 v, st))).2.errors).length
        = List.length ([] : List LexError) + 1
    ∧ BUILD_LEX (.value 7)
        (BUILD_LEX .null ⟨some "err", []⟩ (fun v st => (.tok 0 v, st))).2
        (fun v st => (.tok 1 v, st))
      = (fun v st => (.tok 1 v, st)) 7
          (BUILD_LEX .null ⟨some "err", []⟩ (fun v st => (.tok 0 v, st))).2 :=
  bridge_failure_reported_once_and_cleared ⟨some "err", []⟩
    (fun v st => (.tok 0 v, st)) (fun v st => (.tok 1 v, st)) "err" 7 rfl

end BeancountLexer
